import Mathlib

/-!
Verification of the lto-backup system against its specification.

The development shallowly embeds the Python modules of the repository:

* `modules/system_monitor.py` — buffer-size parsing, memory classification
  and mbuffer parameter planning;
* `modules/registry_manager.py` — the durable backup registry (append,
  find, list, prune);
* `modules/tape_drive.py` — the `mt` command wrapper with its retry loop;
* `modules/backup_job.py` and `core/backup_engine.py` — the backup job
  execution path, its monitoring loop, cancellation and registry-entry
  production.

Python strings are modelled as `List Char` (alias `Str`); Python machine
integers as `ℤ`/`ℕ`.  The float arithmetic of the source is modelled by
exact integer arithmetic: `int(x * 0.8)` as `(4 * x).tdiv 5` (`Int.tdiv`
truncates toward zero exactly as Python `int()`), `int(x * 0.5)` as
`x.tdiv 2`, `int(x * 0.75)` as `(3 * x).tdiv 4`, and the comparisons of
`memory_usage_ratio = 1 - avail/total` against the float thresholds 0.85
and 0.95 by the equivalent cross-multiplied integer comparisons
`20*(total-avail) > 17*total` and `20*(total-avail) > 19*total`.  0.5 and
0.75 are exact binary floats; for 0.8, 0.85 and 0.95 the value of the
nearest binary double differs by < 6e-17 relative, which cannot change a
truncation or comparison outcome at byte-count magnitudes (it would need
operands beyond ~2 PiB).  Filesystem state is modelled explicitly: the registry
file is the list of its lines (every writer in the source terminates each
line with a newline), external processes are modelled by their observable
outcomes (exit code, output lines, timeout), and wall-clock values are
explicit parameters.
-/

deriving instance DecidableEq for Except

/-- Python strings, modelled as their character lists. -/
abbrev Str := List Char

/-- The whitespace characters removed by Python `str.strip()`. -/
def wsChar (c : Char) : Bool :=
  c = ' ' || c = '\t' || c = '\n' || c = '\x0d' || c = '\x0b' || c = '\x0c'

/-- Drop leading whitespace — the left half of Python `str.strip()`. -/
def trimLeft (l : Str) : Str := l.dropWhile wsChar

/-- Drop trailing whitespace — the right half of Python `str.strip()`. -/
def trimRight (l : Str) : Str := ((l.reverse.dropWhile wsChar)).reverse

/-- Python `str.strip()`. -/
def pyStripList (l : Str) : Str := trimRight (trimLeft l)

/-- Python `str.upper()` (ASCII fragment, which is all the source feeds it). -/
def pyUpperList (l : Str) : Str := l.map Char.toUpper

/-- Prefix test: the first argument starts the second. -/
def listLeads : Str → Str → Bool
  | [], _ => true
  | _ :: _, [] => false
  | a :: as, b :: bs => a = b && listLeads as bs

/-- Python `needle in hay` substring containment. -/
def strContains (n : Str) : Str → Bool
  | [] => n.isEmpty
  | c :: t => listLeads n (c :: t) || strContains n t

/-- Python `str.split(sep)` for a one-character separator:
`"a;b".split(';') = ["a","b"]`, `"".split(';') = [""]`. -/
def pySplitList (sep : Char) : Str → List Str
  | [] => [[]]
  | c :: t =>
    match pySplitList sep t with
    | [] => [[]]
    | f :: rest => if c = sep then [] :: f :: rest else (c :: f) :: rest

/-- Python `sep.join(parts)` — inverse of `pySplitList`. -/
def joinSep (sep : Char) : List Str → Str
  | [] => []
  | [a] => a
  | a :: rest => a ++ sep :: joinSep sep rest

/-- Decimal digit test, as in Python numeral parsing. -/
def isDigitCh (c : Char) : Bool := '0' ≤ c && c ≤ '9'

/-- Value of a decimal digit. -/
def digitVal (c : Char) : ℕ := c.toNat - '0'.toNat

/-- Value of a digit string (most significant first). -/
def natOfDigits (l : Str) : ℕ := l.foldl (fun a c => 10 * a + digitVal c) 0

/-- All characters are decimal digits. -/
def allDigits (l : Str) : Bool := l.all isDigitCh

/-- Decimal rendering of a natural number, with explicit fuel
(`fuel ≥ number of digits`; callers pass `n + 1`). -/
def natDigits : ℕ → ℕ → Str
  | 0, _ => []
  | fuel + 1, n =>
    if n < 10 then [Char.ofNat (n + '0'.toNat)]
    else natDigits fuel (n / 10) ++ [Char.ofNat (n % 10 + '0'.toNat)]

/-- Python `str(i)` for an integer. -/
def intToStr (i : ℤ) : Str :=
  if i < 0 then '-' :: natDigits (i.natAbs + 1) i.natAbs
  else natDigits (i.natAbs + 1) i.natAbs

/-- Python `int(x)` applied to an exact quotient `num / 10 ^ scale`:
truncation toward zero, i.e. `Int.tdiv`. -/
def pyTruncScaled (num : ℤ) (scale : ℕ) : ℤ := num.tdiv ((10 : ℤ) ^ scale)

/-!
## `modules/system_monitor.py`
-/

/-- Result of Python `float(s)` on the fragment of inputs the source can
produce: optional sign, then `INF`/`INFINITY`/`NAN` (the input is already
upper-cased by `_parse_mbuffer_size`) or a decimal numeral with an optional
single point.  Exponents, underscores and interior whitespace — accepted
by CPython but never produced by a configured buffer size — are outside
the fragment and classified as a parse failure.  A finite value is kept as
the exact decimal `num / 10 ^ scale` (the binary rounding of the float is
irrelevant at the magnitudes of every theorem below). -/
inductive PyFloatV
  | fin (num : ℤ) (scale : ℕ)
  | inf
  | ninf
  | nan
  | err
  deriving DecidableEq, Repr

/-- Model of Python `float(number_str)` on the fragment described at
`PyFloatV`. -/
def pyFloatOfStr (l : Str) : PyFloatV :=
  let signBody : ℤ × Str :=
    match l with
    | '+' :: t => (1, t)
    | '-' :: t => (-1, t)
    | _ => (1, l)
  let sign := signBody.1
  let body := signBody.2
  if body = "INF".data || body = "INFINITY".data then
    (if sign = 1 then PyFloatV.inf else PyFloatV.ninf)
  else if body = "NAN".data then PyFloatV.nan
  else
    match pySplitList '.' body with
    | [ip] =>
      if ip ≠ [] && allDigits ip then PyFloatV.fin (sign * natOfDigits ip) 0
      else PyFloatV.err
    | [ip, fp] =>
      if (ip ≠ [] || fp ≠ []) && allDigits ip && allDigits fp then
        PyFloatV.fin (sign * (natOfDigits ip * 10 ^ fp.length + natOfDigits fp)) fp.length
      else PyFloatV.err
    | _ => PyFloatV.err

/-- Model of Python `int(s)` on strings: optional sign then a nonempty
digit string (same fragment note as `pyFloatOfStr`). -/
def pyIntOfStr (l : Str) : Option ℤ :=
  let signBody : ℤ × Str :=
    match l with
    | '+' :: t => (1, t)
    | '-' :: t => (-1, t)
    | _ => (1, l)
  if signBody.2 ≠ [] && allDigits signBody.2 then
    some (signBody.1 * natOfDigits signBody.2)
  else none

/-- The suffix loop of `SystemMonitor._parse_mbuffer_size`: the multipliers
dict is iterated in insertion order `K, M, G, T`; since all suffixes are
distinct single characters this is a case split on the last character. -/
def findSuffix (sizeStr : Str) : Option (ℤ × Str) :=
  match sizeStr.getLast? with
  | some 'K' => some (1024, sizeStr.dropLast)
  | some 'M' => some (1024 * 1024, sizeStr.dropLast)
  | some 'G' => some (1024 * 1024 * 1024, sizeStr.dropLast)
  | some 'T' => some (1024 * 1024 * 1024 * 1024, sizeStr.dropLast)
  | _ => none

/-- The `int(size_str)`-with-default fallback at the end of
`_parse_mbuffer_size` (both `ValueError` paths land here). -/
def mbufferSizeFallback (sizeStr : Str) : ℤ :=
  match pyIntOfStr sizeStr with
  | some n => n
  | none => 2 * 1024 * 1024 * 1024

/-- Model of `SystemMonitor._parse_mbuffer_size` (system_monitor.py:50–74).
`Except.error ()` models the uncaught `OverflowError` raised by
`int(number * multiplier)` when `float(number_str)` is infinite (the
`try` only catches `ValueError`; `int(nan)` raises `ValueError` and is
caught, falling through to the `int(size_str)` attempt). -/
def parse_mbuffer_size (s : Str) : Except Unit ℤ :=
  let sizeStr := pyStripList (pyUpperList s)
  match findSuffix sizeStr with
  | some (mult, numberStr) =>
    match pyFloatOfStr numberStr with
    | PyFloatV.fin num scale => Except.ok (pyTruncScaled (num * mult) scale)
    | PyFloatV.inf => Except.error ()
    | PyFloatV.ninf => Except.error ()
    | PyFloatV.nan => Except.ok (mbufferSizeFallback sizeStr)
    | PyFloatV.err => Except.ok (mbufferSizeFallback sizeStr)
  | none => Except.ok (mbufferSizeFallback sizeStr)

/-- Inputs on which `int(number * multiplier)` overflows: a recognized
size suffix whose numeral part parses as an infinite float. -/
def infSuffixInput (s : Str) : Bool :=
  match findSuffix (pyStripList (pyUpperList s)) with
  | some (_, numberStr) =>
    match pyFloatOfStr numberStr with
    | PyFloatV.inf => true
    | PyFloatV.ninf => true
    | _ => false
  | none => false

/-- Model of `ResourceStatus` (system_monitor.py:18–23). -/
inductive ResourceStatus
  | ok
  | warning
  | critical
  | unknownSt
  deriving DecidableEq, Repr

/-- Model of `ResourceMetrics` (system_monitor.py:25–36); the load-average triple is
omitted (no claim mentions it). -/
structure ResourceMetrics where
  memory_total : ℤ
  memory_available : ℤ
  memory_used_percent : ℚ
  swap_total : ℤ
  swap_used_percent : ℚ
  cpu_percent : ℚ
  disk_free : ℤ
  disk_used_percent : ℚ
  deriving DecidableEq, Repr

/-- Constant `SystemMonitor.MIN_MEMORY_FOR_MBUFFER = 512 * 1024 * 1024`. -/
def MIN_MEMORY_FOR_MBUFFER : ℤ := 512 * 1024 * 1024

/-- Comparison `memory_usage_ratio > WARNING_MEMORY_THRESHOLD (= 0.85)` where
`memory_usage_ratio = 1 - available/total if total > 0 else 1.0`
(system_monitor.py:43,116), cross-multiplied to integers. -/
def usageAboveWarning (m : ResourceMetrics) : Bool :=
  if 0 < m.memory_total then
    20 * (m.memory_total - m.memory_available) > 17 * m.memory_total
  else true

/-- Comparison `memory_usage_ratio > CRITICAL_MEMORY_THRESHOLD (= 0.95)`
(system_monitor.py:44,116), cross-multiplied to integers. -/
def usageAboveCritical (m : ResourceMetrics) : Bool :=
  if 0 < m.memory_total then
    20 * (m.memory_total - m.memory_available) > 19 * m.memory_total
  else true

/-- Model of `SystemMonitor.check_memory_for_mbuffer` (system_monitor.py:110–156),
with `self.mbuffer_size` passed explicitly; returns the classification and
the recommended buffer size (the human-readable message strings are
elided — no claim mentions them).  `int(available_memory * 0.8)` on
line 134 is `(4 * availableMemory).tdiv 5` (exact; the operand is
nonnegative in that branch). -/
def check_memory_for_mbuffer (mbufferSize : ℤ) (m : ResourceMetrics) :
    ResourceStatus × ℤ :=
  let requiredMemory := mbufferSize
  let availableMemory := m.memory_available - MIN_MEMORY_FOR_MBUFFER
  if m.memory_available < MIN_MEMORY_FOR_MBUFFER then
    (ResourceStatus.critical, 0)
  else if availableMemory < requiredMemory then
    let status :=
      if usageAboveCritical m then ResourceStatus.critical
      else if usageAboveWarning m then ResourceStatus.warning
      else ResourceStatus.warning
    (status, max MIN_MEMORY_FOR_MBUFFER ((4 * availableMemory).tdiv 5))
  else if usageAboveCritical m then
    (ResourceStatus.critical, requiredMemory)
  else if usageAboveWarning m then
    (ResourceStatus.warning, requiredMemory)
  else
    (ResourceStatus.ok, requiredMemory)

/-- The mbuffer parameters produced by
`MBufferOptimizer.get_optimal_mbuffer_params` (the decimal `size` string
rendering of `buffer_size` is elided; the byte value it is rendered from
is kept). -/
structure MbufferParams where
  size_bytes : ℤ
  fill_percent : Str
  block_size : Str
  memory_status : ResourceStatus
  deriving DecidableEq, Repr

/-- Model of `MBufferOptimizer.get_optimal_mbuffer_params` (system_monitor.py:305–348).
The function takes the memory classification, the recommended size from
`check_memory_for_mbuffer` and the disk-space classification — exactly the
values it extracts from `check_all_resources`, whose sampling is
environmental input here. -/
def get_optimal_mbuffer_params (memStatus : ResourceStatus)
    (recommendedSize : ℤ) (diskStatus : ResourceStatus) : MbufferParams :=
  let bufferSize :=
    if memStatus = ResourceStatus.critical then
      max MIN_MEMORY_FOR_MBUFFER (recommendedSize.tdiv 2)
    else if memStatus = ResourceStatus.warning then
      (3 * recommendedSize).tdiv 4
    else recommendedSize
  let fill :=
    if memStatus = ResourceStatus.critical then "70%".data
    else if memStatus = ResourceStatus.warning then "80%".data
    else "90%".data
  let block :=
    if diskStatus = ResourceStatus.critical then "512k".data
    else if bufferSize > 2 * 1024 * 1024 * 1024 then "1M".data
    else "256k".data
  ⟨bufferSize, fill, block, memStatus⟩

/-!
## `modules/registry_manager.py`

The registry file is modelled as the list of its lines
(`RegistryState.lines`); every writer in the source terminates each
written line with `'\n'`, so file content and line list are in bijection.
`RegistryState.backups` is the directory of snapshot copies produced by
`backup_registry`, newest first.
-/

/-- One parsed registry record: the five `;`-separated fields
`timestamp;label;tapes;file_index;manifest` (the `line_number` and
`raw_line` bookkeeping fields of the source dicts are elided). -/
structure RegEntryM where
  ts : Str
  label : Str
  tapes : Str
  fileIndex : Str
  manifest : Str
  deriving DecidableEq, Repr

/-- Model of `SafeFileHandler.read_lines(path, skip_empty=True)`
(file_utils.py:119–130): split into lines, strip each line
(`strip_lines` defaults to `True`), drop empties. -/
def read_lines (lines : List Str) : List Str :=
  (lines.map pyStripList).filter (fun l => l ≠ [])

/-- The shared per-line parse of `find_backup_by_label` and
`get_all_backups`: `parts = line.strip().split(';')`, accepted when it has
at least 5 fields (registry_manager.py:214–224, 498–508). -/
def parseLine (line : Str) : Option RegEntryM :=
  match pySplitList ';' (pyStripList line) with
  | f0 :: f1 :: f2 :: f3 :: f4 :: _ => some ⟨f0, f1, f2, f3, f4⟩
  | _ => none

/-- Model of `RegistryManager.find_backup_by_label` (registry_manager.py:195–228):
scan the stripped, nonempty lines in order; the first line that contains
`label` as a raw substring (`if label in line`) *and* splits into at least
5 fields is returned; a matching line with fewer fields is skipped and the
scan continues. -/
def find_backup_by_label (lines : List Str) (label : Str) : Option RegEntryM :=
  (read_lines lines).findSome? (fun line =>
    if strContains label line then parseLine line else none)

/-- The serialized form written by `add_registry_entry`
(registry_manager.py:468–470) and by the rewrite loop of
`cleanup_old_backups_from_registry` (registry_manager.py:554–557):
`timestamp;label;tapes;file_index;manifest`. -/
def renderLine (e : RegEntryM) : Str :=
  e.ts ++ ';' :: e.label ++ ';' :: e.tapes ++ ';' :: e.fileIndex ++ ';' :: e.manifest

/-- Model of `RegistryManager.add_registry_entry` (registry_manager.py:456–481):
append the serialized line (plus `'\n'`) to the registry file. -/
def add_registry_entry (lines : List Str) (e : RegEntryM) : List Str :=
  lines ++ [renderLine e]

/-- Model of `RegistryManager.get_all_backups` (registry_manager.py:483–513):
all lines that parse into at least five fields, in file order. -/
def get_all_backups (lines : List Str) : List RegEntryM :=
  (read_lines lines).filterMap parseLine

/-- A numeric `strptime` field: nonempty, all digits, at most `maxLen`
digits (a longer run would consume the following literal separator and
make `strptime` raise `ValueError`). -/
def parseNumField (l : Str) (maxLen : ℕ) : Option ℕ :=
  if l ≠ [] && l.length ≤ maxLen && allDigits l then some (natOfDigits l)
  else none

/-- Gregorian leap year, as validated by `datetime`. -/
def isLeapYear (y : ℕ) : Bool := (y % 4 = 0 && y % 100 ≠ 0) || y % 400 = 0

/-- Days in a month, as validated by `datetime`. -/
def daysInMonth (y mo : ℕ) : ℕ :=
  if mo = 2 then (if isLeapYear y then 29 else 28)
  else if mo = 4 || mo = 6 || mo = 9 || mo = 11 then 30
  else 31

/-- Days since 1970-01-01 of the civil date `y-mo-d` (standard
era-of-400-years computation; all intermediate values are nonnegative for
the validated range `y ≥ 1`). -/
def daysFromCivil (y mo d : ℕ) : ℤ :=
  let yAdj : ℤ := if mo ≤ 2 then (y : ℤ) - 1 else (y : ℤ)
  let era := yAdj / 400
  let yoe := yAdj - era * 400
  let mp : ℤ := if 2 < mo then (mo : ℤ) - 3 else (mo : ℤ) + 9
  let doy := (153 * mp + 2) / 5 + (d : ℤ) - 1
  let doe := yoe * 365 + yoe / 4 - yoe / 100 + doy
  era * 146097 + doe - 719468

/-- Model of `datetime.strptime(ts, "%Y-%m-%d %H:%M:%S").timestamp()`
(registry_manager.py:536): parse-and-validate, then seconds since the
epoch.  `timestamp()` uses the host timezone; the model fixes UTC, which
only shifts every timestamp and the cutoff by the same constant. -/
def parse_ts (l : Str) : Option ℤ :=
  match pySplitList ' ' l with
  | [ds, tms] =>
    match pySplitList '-' ds, pySplitList ':' tms with
    | [ys, mos, das], [hs, mis, ss] => do
      let y ← parseNumField ys 4
      let mo ← parseNumField mos 2
      let d ← parseNumField das 2
      let h ← parseNumField hs 2
      let mi ← parseNumField mis 2
      let s ← parseNumField ss 2
      if 1 ≤ y && 1 ≤ mo && mo ≤ 12 && 1 ≤ d && d ≤ daysInMonth y mo
          && h ≤ 23 && mi ≤ 59 && s ≤ 59 then
        some (86400 * daysFromCivil y mo d + 3600 * h + 60 * mi + s)
      else none
    | _, _ => none
  | _ => none

/-- The registry file plus its snapshot directory (newest snapshot
first). -/
structure RegistryState where
  lines : List Str
  backups : List (List Str)
  deriving DecidableEq, Repr

/-- Model of `RegistryManager.backup_registry` (registry_manager.py:60–90): copy
the current registry file to a timestamped snapshot, then
`_cleanup_old_backups(keep_last=10)` garbage-collects snapshots beyond
the 10 newest (registry_manager.py:92–118).  The JSON convenience copy is
elided. -/
def backup_registry (st : RegistryState) : RegistryState :=
  ⟨st.lines, (st.lines :: st.backups).take 10⟩

/-- The keep test of the prune loop (registry_manager.py:533–543): keep
when the parsed timestamp is strictly newer than the cutoff, and also
keep (`except ValueError`) when the timestamp does not parse. -/
def keepEntry (cutoff : ℤ) (b : RegEntryM) : Bool :=
  match parse_ts b.ts with
  | some t => cutoff < t
  | none => true

/-- Model of `RegistryManager.cleanup_old_backups_from_registry`
(registry_manager.py:515–565), the `prune(maxAgeDays)` of the spec:
read all parsed entries (empty ⇒ return 0); `cutoff = now - days*86400`;
partition by `keepEntry`; only when at least one entry was removed,
snapshot the file (`backup_registry`) and rewrite it with the kept
entries; return the removed count. -/
def cleanup_old_backups_from_registry (now maxAgeDays : ℤ)
    (st : RegistryState) : RegistryState × ℕ :=
  let allEntries := get_all_backups st.lines
  if allEntries.isEmpty then (st, 0)
  else
    let cutoff := now - maxAgeDays * 86400
    let kept := allEntries.filter (keepEntry cutoff)
    let removedCount := allEntries.countP (fun b => ! keepEntry cutoff b)
    if 0 < removedCount then
      (⟨kept.map renderLine, (backup_registry st).backups⟩, removedCount)
    else (st, removedCount)

/-!
## `modules/tape_drive.py`

The external `mt` binary is modelled by the outcome of each successive
invocation (a function from the 0-based attempt index).
-/

/-- Outcome of one `subprocess.run(["mt", ...], timeout=30)` invocation. -/
inductive MtOutcome
  | exit (code : ℤ) (stdout stderr : Str)
  | timedOut
  | raised (msg : Str)
  deriving DecidableEq, Repr

/-- Constant `TapeDrive.max_retries = 3` (tape_drive.py:68). -/
def MT_MAX_RETRIES : ℕ := 3

/-- The body of `TapeDrive._execute_mt_command` (tape_drive.py:104–162):
`for attempt in range(max_retries if retry_on_error else 1)`; exit code 0
returns `(True, stdout)`; a nonzero exit returns `(False, stderr.strip())`
unless `attempt < max_retries - 1 and retry_on_error`, in which case the
loop sleeps 2s and retries; `TimeoutExpired` and other exceptions return
`(False, message)` immediately.  The result also carries the number of
`mt` invocations consumed.  `fuel` is the remaining loop iterations,
`i` the current attempt index. -/
def mtRun (retry : Bool) (f : ℕ → MtOutcome) : ℕ → ℕ → (Bool × Str) × ℕ
  | 0, i => ((false, "Превышено количество попыток".data), i)
  | fuel + 1, i =>
    match f i with
    | MtOutcome.exit c out err =>
      if c = 0 then ((true, out), i + 1)
      else if i < MT_MAX_RETRIES - 1 ∧ retry = true then mtRun retry f fuel (i + 1)
      else ((false, pyStripList err), i + 1)
    | MtOutcome.timedOut =>
      ((false, "Таймаут выполнения команды mt".data), i + 1)
    | MtOutcome.raised m =>
      ((false, "Исключение при выполнении mt: ".data ++ m), i + 1)

/-- Model of `TapeDrive._execute_mt_command` with its `retry_on_error` flag. -/
def execute_mt_command (retry : Bool) (f : ℕ → MtOutcome) : (Bool × Str) × ℕ :=
  mtRun retry f (if retry then MT_MAX_RETRIES else 1) 0

/-- Drive status as far as the claims need it (the vendor/serial/density
parsing and the secondary `tapeinfo` enrichment of
`TapeDrive.get_status` are elided). -/
inductive TapeStatusM
  | ready
  | offline
  | unknownSt
  | errorSt
  deriving DecidableEq, Repr

/-- The `ONLINE`/`DR_OPEN`/`OFFLINE` classification of the successful
branch of `TapeDrive.get_status` (tape_drive.py:199–205). -/
def statusFromOutput (out : Str) : TapeStatusM :=
  if strContains "ONLINE".data out then TapeStatusM.ready
  else if strContains "DR_OPEN".data out || strContains "OFFLINE".data out then
    TapeStatusM.offline
  else TapeStatusM.unknownSt

/-- Model of `TapeDrive.get_status` (tape_drive.py:164–237): runs
`_execute_mt_command("status")` — with `retry_on_error` left at its
default `True` — and on failure reports status `ERROR` carrying the error
text.  Returns `(status, last_error, mt invocations consumed)`. -/
def get_status (f : ℕ → MtOutcome) : TapeStatusM × Str × ℕ :=
  let r := execute_mt_command true f
  if r.1.1 = true then (statusFromOutput r.1.2, [], r.2)
  else (TapeStatusM.errorSt, r.1.2, r.2)

/-!
## `modules/backup_job.py` and `core/backup_engine.py`
-/

/-- Model of `JobStatus` (backup_job.py:21–28). -/
inductive JobStatusM
  | pending
  | running
  | paused
  | completed
  | failed
  | cancelled
  deriving DecidableEq, Repr

/-- The observable result of `BackupJob._execute_backup` as far as the
claims need it: terminal status, the attached registry entry (present on
the success branch only in the source), and whether `process.terminate()`
was invoked on the pipeline. -/
structure BackupResultM where
  status : JobStatusM
  registry_entry : Option RegEntryM
  terminated : Bool
  deriving DecidableEq, Repr

/-- Environment of one `BackupJob._execute_backup` run: the guard
outcomes, the external pipeline's behaviour, and the ambient values the
job reads (clock, tape position, manifest path).  `cancel_from` is the
first monitoring-loop iteration at which `cancellation_event.is_set()`
is observed (the event is checked once per output line, after the line is
read); `none` means the event is never set while output remains. -/
structure BackupEnv where
  has_source : Bool
  has_label : Bool
  source_exists : Bool
  system_ready : Bool
  tape_ready : Bool
  out_lines : List Str
  cancel_from : Option ℕ
  returncode : ℤ
  file_number : ℤ
  now_ts : Str
  manifest_path : Str
  label : Str
  deriving DecidableEq, Repr

/-- The monitoring loop of `_execute_backup` (backup_job.py:333–347):
consume pipeline output line by line; when the cancellation event is
observed, `process.terminate()` and break.  Returns the collected
stripped nonempty output lines and whether the pipeline was terminated. -/
def monitorLoop (outLines : List Str) (cancelFrom : Option ℕ) :
    List Str × Bool :=
  let collect := fun (ls : List Str) =>
    ls.filterMap (fun l => let s := pyStripList l; if s = [] then none else some s)
  match cancelFrom with
  | some k =>
    if k < outLines.length then (collect (outLines.take k), true)
    else (collect outLines, false)
  | none => (collect outLines, false)

/-- Model of `BackupJob._execute_backup` (backup_job.py:232–402).  The failure
guards (missing params, missing source, system not ready, tape not ready)
fail fast before the pipeline starts; after the pipeline, a nonzero
`returncode` yields a Failed result with no registry entry; otherwise a
Completed result carrying exactly one registry entry built from the
current clock, the label, `"[N/A]"` (`tapes_used` is never appended to in
this code), the tape file number and the manifest path. -/
def execute_backup (env : BackupEnv) : BackupResultM :=
  if ¬ (env.has_source = true ∧ env.has_label = true) then
    ⟨JobStatusM.failed, none, false⟩
  else if env.source_exists = false then
    ⟨JobStatusM.failed, none, false⟩
  else if env.system_ready = false then
    ⟨JobStatusM.failed, none, false⟩
  else if env.tape_ready = false then
    ⟨JobStatusM.failed, none, false⟩
  else
    let run := monitorLoop env.out_lines env.cancel_from
    if env.returncode ≠ 0 then
      ⟨JobStatusM.failed, none, run.2⟩
    else
      ⟨JobStatusM.completed,
        some ⟨env.now_ts, env.label, "[N/A]".data,
          intToStr env.file_number, env.manifest_path⟩,
        run.2⟩

/-- The status update at the end of `BackupJob._execute_task`
(backup_job.py:210–215): the job's final status is Completed when the
result is Completed and Failed otherwise — unconditionally overwriting
any CANCELLED status a concurrent `cancel()` call had set. -/
def job_final_status (env : BackupEnv) : JobStatusM :=
  if (execute_backup env).status = JobStatusM.completed then JobStatusM.completed
  else JobStatusM.failed

/-- One row written by `core/registry_manager.py` `add_backup`
(core/registry_manager.py:49–76): six CSV columns. -/
structure CoreRegRow where
  ts : Str
  label : Str
  tapes : Str
  file_number : Str
  manifest_path : Str
  size_estimate : Str
  deriving DecidableEq, Repr

/-- Environment of one `BackupEngine.backup` run
(core/backup_engine.py:118–193): whether the pre-pipeline phase raised,
the pipeline exit code, and the ambient values `_finalize_backup` reads. -/
structure CoreEnv where
  raised : Bool
  returncode : ℤ
  tapes : Str
  file_number : Str
  label : Str
  manifest_path : Str
  now_iso : Str
  deriving DecidableEq, Repr

/-- Model of `BackupEngine.backup` + `BackupEngine._finalize_backup`
(core/backup_engine.py:118–219): on exit code 0, `_finalize_backup` calls
`registry.add_backup` exactly once; every other path (nonzero exit,
exception) appends nothing.  Returns the success flag and the list of
rows appended to the registry. -/
def core_backup (env : CoreEnv) : Bool × List CoreRegRow :=
  if env.raised = true then (false, [])
  else if env.returncode = 0 then
    (true, [⟨env.now_iso, env.label, env.tapes, env.file_number,
            env.manifest_path, []⟩])
  else (false, [])

/-- Well-formedness of an entry for the append/find round-trip: its
serialized line survives the `strip` performed on read, and splitting on
`;` recovers exactly the five fields (equivalently: no field contains
`;`, the timestamp does not start with whitespace and the manifest does
not end with it — every entry the backup path produces satisfies this). -/
def entryWF (e : RegEntryM) : Prop :=
  pyStripList (renderLine e) = renderLine e ∧
    pySplitList ';' (renderLine e) = [e.ts, e.label, e.tapes, e.fileIndex, e.manifest]

instance (e : RegEntryM) : Decidable (entryWF e) := by
  unfold entryWF
  infer_instance

/-- A backup run in which the cancellation event is observed at the first
monitoring-loop iteration and the terminated pipeline exits with
`-SIGTERM` (-15): all pre-pipeline guards pass. -/
def envC4 : BackupEnv :=
  ⟨true, true, true, true, true,
    ["./data/file1".data, "./data/file2".data], some 0, -15, 3,
    "2024-06-01 00:00:00".data, "/manifests/20240601_0000_L.txt".data,
    "L".data⟩

/-- An `mt` behaviour whose first invocation fails with a transient
nonzero exit and whose second invocation succeeds. -/
def mtSeqC7 : ℕ → MtOutcome := fun i =>
  if i = 0 then MtOutcome.exit 1 [] "drive busy".data
  else MtOutcome.exit 0 "ONLINE".data []

/-- A registry with one prunable and one fresh entry (relative to
2024-06-02 with a 10-day retention). -/
def stC6 : RegistryState :=
  ⟨["2024-05-01 00:00:00;Old;[T1];1;/m/o.txt".data,
    "2024-06-01 00:00:00;New;[T2];2;/m/n.txt".data], []⟩

/-!
## Supporting lemmas
-/

theorem listLeads_append (n b : Str) : listLeads n (n ++ b) = true := by
  induction n with
  | nil => rfl
  | cons c t ih => simp [listLeads, ih]

theorem strContains_nil (h : Str) : strContains [] h = true := by
  cases h <;> simp [strContains, listLeads, List.isEmpty]

theorem strContains_append_mid (a n b : Str) :
    strContains n (a ++ (n ++ b)) = true := by
  induction a with
  | nil =>
    cases n with
    | nil => simpa using strContains_nil b
    | cons c t =>
      have h := listLeads_append (c :: t) b
      simp only [List.nil_append, List.cons_append, strContains, Bool.or_eq_true]
      exact Or.inl h
  | cons c t ih => simp [strContains, ih]

theorem pySplitList_ne_nil (sep : Char) (l : Str) : pySplitList sep l ≠ [] := by
  induction l with
  | nil => simp [pySplitList]
  | cons c t ih =>
    cases h : pySplitList sep t with
    | nil => simp [pySplitList, h]
    | cons f rest =>
      simp only [pySplitList, h]
      split <;> simp

theorem joinSep_split (sep : Char) (l : Str) :
    joinSep sep (pySplitList sep l) = l := by
  induction l with
  | nil => rfl
  | cons c t ih =>
    cases h : pySplitList sep t with
    | nil => exact absurd h (pySplitList_ne_nil sep t)
    | cons f rest =>
      rw [h] at ih
      simp only [pySplitList, h]
      by_cases hc : c = sep
      · subst hc
        simpa [joinSep] using ih
      · cases rest with
        | nil => simp_all [joinSep]
        | cons r rs => simp_all [joinSep]

theorem dropWhile_dropWhile (p : Char → Bool) (l : Str) :
    List.dropWhile p (List.dropWhile p l) = List.dropWhile p l := by
  induction l with
  | nil => rfl
  | cons c t ih =>
    by_cases h : p c = true
    · simp [List.dropWhile_cons, h, ih]
    · simp [List.dropWhile_cons, h]

theorem trimLeft_idem (l : Str) : trimLeft (trimLeft l) = trimLeft l :=
  dropWhile_dropWhile wsChar l

theorem trimRight_idem (l : Str) : trimRight (trimRight l) = trimRight l := by
  simp [trimRight, dropWhile_dropWhile]

theorem trimRight_prefixOf (l : Str) : trimRight l <+: l := by
  have hs := List.dropWhile_suffix (l := l.reverse) wsChar
  have hp := List.reverse_prefix.2 hs
  rwa [List.reverse_reverse] at hp

theorem trimLeft_of_prefixOf (l m : Str) (hm : m <+: l)
    (hfix : trimLeft l = l) : trimLeft m = m := by
  cases m with
  | nil => rfl
  | cons a t =>
    obtain ⟨rest, hrest⟩ := hm
    by_cases hws : wsChar a = true
    · exfalso
      rw [← hrest] at hfix
      have hlen := congrArg List.length hfix
      simp [trimLeft, List.dropWhile_cons, hws, List.length_append] at hlen
      have hle := (List.dropWhile_suffix (l := t ++ rest) wsChar).length_le
      simp [List.length_append] at hle
      omega
    · simp [trimLeft, List.dropWhile_cons, hws]

theorem pyStrip_idem (l : Str) : pyStripList (pyStripList l) = pyStripList l := by
  unfold pyStripList
  rw [trimLeft_of_prefixOf (trimLeft l) (trimRight (trimLeft l))
    (trimRight_prefixOf (trimLeft l)) (trimLeft_idem l), trimRight_idem]

theorem read_lines_append (a b : List Str) :
    read_lines (a ++ b) = read_lines a ++ read_lines b := by
  simp [read_lines]

theorem mem_read_lines (l : Str) (ls : List Str) (h : l ∈ read_lines ls) :
    pyStripList l = l ∧ l ≠ [] := by
  unfold read_lines at h
  obtain ⟨hmem, hne⟩ := List.mem_filter.1 h
  obtain ⟨raw, _, hraw⟩ := List.mem_map.1 hmem
  refine ⟨?_, by simpa using hne⟩
  rw [← hraw, pyStrip_idem]

theorem read_lines_of_stripped (ls : List Str)
    (h : ∀ l ∈ ls, pyStripList l = l ∧ l ≠ []) : read_lines ls = ls := by
  induction ls with
  | nil => rfl
  | cons a t ih =>
    obtain ⟨ha, hne⟩ := h a (List.mem_cons_self a t)
    have ht := ih (fun l hl => h l (List.mem_cons_of_mem a hl))
    simp only [read_lines, List.map_cons, List.filter_cons] at ht ⊢
    rw [ha]
    simp only [hne, decide_not]
    simpa [hne] using ht

theorem findSome_append_none {α : Type} (f : Str → Option α) (l₁ l₂ : List Str)
    (h : ∀ x ∈ l₁, f x = none) :
    (l₁ ++ l₂).findSome? f = l₂.findSome? f := by
  induction l₁ with
  | nil => rfl
  | cons a t ih =>
    have ha := h a (List.mem_cons_self a t)
    simp only [List.cons_append, List.findSome?, ha]
    exact ih (fun x hx => h x (List.mem_cons_of_mem a hx))

theorem filterMap_id_of {α : Type} (g : α → Option α) (ks : List α)
    (h : ∀ b ∈ ks, g b = some b) : ks.filterMap g = ks := by
  induction ks with
  | nil => rfl
  | cons a t ih =>
    have ha := h a (List.mem_cons_self a t)
    simp only [List.filterMap_cons, ha]
    exact congrArg (a :: ·) (ih (fun b hb => h b (List.mem_cons_of_mem a hb)))

theorem parseLine_some_length (l : Str) (b : RegEntryM)
    (h : parseLine l = some b) :
    5 ≤ (pySplitList ';' (pyStripList l)).length := by
  unfold parseLine at h
  rcases hsp : pySplitList ';' (pyStripList l) with _ | ⟨a, _ | ⟨c, _ | ⟨d, _ | ⟨e, _ | ⟨f, rest⟩⟩⟩⟩⟩ <;>
    rw [hsp] at h <;> simp_all

theorem parse_render (l : Str) (h1 : pyStripList l = l)
    (h2 : (pySplitList ';' l).length = 5) (b : RegEntryM)
    (h3 : parseLine l = some b) : renderLine b = l := by
  unfold parseLine at h3
  rw [h1] at h3
  rcases hsp : pySplitList ';' l with _ | ⟨f0, _ | ⟨f1, _ | ⟨f2, _ | ⟨f3, _ | ⟨f4, rest⟩⟩⟩⟩⟩ <;>
    rw [hsp] at h3 <;> simp_all
  rw [← h3]
  have hjoin := joinSep_split ';' l
  rw [hsp] at hjoin
  rw [← hjoin]
  simp [renderLine, joinSep]

theorem mtRun_count_le (retry : Bool) (f : ℕ → MtOutcome) :
    ∀ fuel i, (mtRun retry f fuel i).2 ≤ i + fuel := by
  intro fuel
  induction fuel with
  | zero => intro i; simp [mtRun]
  | succ n ih =>
    intro i
    unfold mtRun
    rcases f i with ⟨c, out, err⟩ | _ | m
    · by_cases hc : c = 0
      · simp [hc]
      · simp only [hc, if_false]
        split
        · have := ih (i + 1); omega
        · simp
    · simp
    · simp

theorem mtRun_count_ge (retry : Bool) (f : ℕ → MtOutcome) :
    ∀ fuel i, i ≤ (mtRun retry f fuel i).2 := by
  intro fuel
  induction fuel with
  | zero => intro i; simp [mtRun]
  | succ n ih =>
    intro i
    unfold mtRun
    rcases f i with ⟨c, out, err⟩ | _ | m
    · by_cases hc : c = 0
      · simp [hc]
      · simp only [hc, if_false]
        split
        · have := ih (i + 1); omega
        · simp
    · simp
    · simp

theorem mtRun_count_succ_ge (retry : Bool) (f : ℕ → MtOutcome)
    (fuel i : ℕ) : i + 1 ≤ (mtRun retry f (fuel + 1) i).2 := by
  unfold mtRun
  rcases f i with ⟨c, out, err⟩ | _ | m
  · by_cases hc : c = 0
    · simp [hc]
    · simp only [hc, if_false]
      split
      · have := mtRun_count_ge retry f fuel (i + 1); omega
      · simp
  · simp
  · simp

theorem mtRun_succ (retry : Bool) (f : ℕ → MtOutcome) (fuel i : ℕ) :
    mtRun retry f (fuel + 1) i
      = match f i with
        | MtOutcome.exit c out err =>
          if c = 0 then ((true, out), i + 1)
          else if i < MT_MAX_RETRIES - 1 ∧ retry = true then
            mtRun retry f fuel (i + 1)
          else ((false, pyStripList err), i + 1)
        | MtOutcome.timedOut =>
          ((false, "Таймаут выполнения команды mt".data), i + 1)
        | MtOutcome.raised m =>
          ((false, "Исключение при выполнении mt: ".data ++ m), i + 1) := rfl

theorem countP_bnot_add {α : Type} (p : α → Bool) (l : List α) :
    l.countP (fun a => ! p a) + l.countP p = l.length := by
  induction l with
  | nil => rfl
  | cons a t ih =>
    by_cases h : p a = true <;>
      simp [List.countP_cons, h] <;> omega

theorem cleanup_eq (now maxAgeDays : ℤ) (st : RegistryState) :
    cleanup_old_backups_from_registry now maxAgeDays st
      = if (get_all_backups st.lines).isEmpty = true then (st, 0)
        else
          if 0 < (get_all_backups st.lines).countP
              (fun b => ! keepEntry (now - maxAgeDays * 86400) b) then
            (⟨((get_all_backups st.lines).filter
                  (keepEntry (now - maxAgeDays * 86400))).map renderLine,
              (backup_registry st).backups⟩,
              (get_all_backups st.lines).countP
                (fun b => ! keepEntry (now - maxAgeDays * 86400) b))
          else (st, (get_all_backups st.lines).countP
            (fun b => ! keepEntry (now - maxAgeDays * 86400) b)) := rfl

/-!
## Claims
-/

/-- C8: for every resource snapshot whose available memory is below the
absolute 512 MiB floor, `check_memory_for_mbuffer` classifies memory as
CRITICAL, regardless of the requested buffer size. -/
theorem critical_below_floor (req : ℤ) (m : ResourceMetrics)
    (h : m.memory_available < MIN_MEMORY_FOR_MBUFFER) :
    (check_memory_for_mbuffer req m).1 = ResourceStatus.critical := by
  unfold check_memory_for_mbuffer
  rw [if_pos h]

/-- Witness for `critical_below_floor` at a concrete snapshot with
256 MiB available out of 8 GiB and a 2 GiB request. -/
theorem critical_below_floor_witness :
    (⟨8589934592, 268435456, 0, 0, 0, 0, 0, 0⟩ : ResourceMetrics).memory_available
        < MIN_MEMORY_FOR_MBUFFER
    ∧ (check_memory_for_mbuffer 2147483648
        ⟨8589934592, 268435456, 0, 0, 0, 0, 0, 0⟩).1 = ResourceStatus.critical :=
  ⟨by decide, critical_below_floor 2147483648 _ (by decide)⟩

/-- C10, counterexample: the buffer-size parser is not the total,
positive-valued function the claim describes — `"0"` parses to the
non-positive integer 0, and `"INFG"` raises an uncaught `OverflowError`
(`int()` of an infinite float). -/
theorem size_parse_cx :
    parse_mbuffer_size "0".data = Except.ok 0
    ∧ parse_mbuffer_size "INFG".data = Except.error () := by
  constructor <;> decide

/-- C10, amended: the parser raises (OverflowError) exactly when the
numeral before a recognized suffix parses as an infinite float; otherwise
it returns an integer — not necessarily positive (`"-1G"` yields −2³⁰) —
and any string it cannot parse at all falls back to the 2 GiB default
(e.g. `"ABC"`). -/
theorem size_parse_amended :
    (∀ s : Str, parse_mbuffer_size s = Except.error () ↔ infSuffixInput s = true)
    ∧ parse_mbuffer_size "-1G".data = Except.ok (-1073741824)
    ∧ parse_mbuffer_size "ABC".data = Except.ok 2147483648 := by
  refine ⟨fun s => ?_, by decide, by decide⟩
  unfold parse_mbuffer_size infSuffixInput
  rcases h : findSuffix (pyStripList (pyUpperList s)) with _ | ⟨mult, ns⟩
  · simp [h]
  · rcases hf : pyFloatOfStr ns with ⟨num, sc⟩ | _ | _ | _ | _ <;> simp [h, hf]

/-- Witness for `size_parse_amended`: its characterization instantiated
at the overflowing input `"INFG"`. -/
theorem size_parse_witness :
    parse_mbuffer_size "INFG".data = Except.error ()
      ↔ infSuffixInput "INFG".data = true :=
  size_parse_amended.1 "INFG".data

/-- C2, counterexample: with a 100 MiB request (below the 512 MiB floor)
and 600 MiB available out of 4 GiB, the monitor takes the reduce branch
and recommends the 512 MiB floor — strictly more than the request, and
different from the spec formula `min(requested, max(floor,
0.8*available))` (which gives 100 MiB here). -/
theorem recommended_bound_cx :
    check_memory_for_mbuffer 104857600 ⟨4294967296, 629145600, 0, 0, 0, 0, 0, 0⟩
      = (ResourceStatus.warning, 536870912)
    ∧ ¬ ((check_memory_for_mbuffer 104857600
          ⟨4294967296, 629145600, 0, 0, 0, 0, 0, 0⟩).2 ≤ 104857600)
    ∧ (check_memory_for_mbuffer 104857600
          ⟨4294967296, 629145600, 0, 0, 0, 0, 0, 0⟩).2
        ≠ min 104857600 (max MIN_MEMORY_FOR_MBUFFER ((4 * 629145600 : ℤ).tdiv 5)) := by
  refine ⟨by decide, by decide, by decide⟩

/-- C2, amended: `recommended ≤ requested` holds whenever the request is
at least the 512 MiB floor (for smaller requests the floor clamp can
exceed the request); and in the reduce branch the recommendation is
`max(floor, int(0.8 * (available − floor)))` — the code subtracts the
floor from the available memory and never takes a `min` with the
request. -/
theorem recommended_bound_amended (req : ℤ) (m : ResourceMetrics) :
    (MIN_MEMORY_FOR_MBUFFER ≤ req → (check_memory_for_mbuffer req m).2 ≤ req)
    ∧ (MIN_MEMORY_FOR_MBUFFER ≤ m.memory_available →
        m.memory_available - MIN_MEMORY_FOR_MBUFFER < req →
        (check_memory_for_mbuffer req m).2
          = max MIN_MEMORY_FOR_MBUFFER
              ((4 * (m.memory_available - MIN_MEMORY_FOR_MBUFFER)).tdiv 5)) := by
  have hMIN : MIN_MEMORY_FOR_MBUFFER = 536870912 := by norm_num [MIN_MEMORY_FOR_MBUFFER]
  constructor
  · intro hreq
    by_cases h1 : m.memory_available < MIN_MEMORY_FOR_MBUFFER
    · simp [check_memory_for_mbuffer, h1]
      omega
    · by_cases h2 : m.memory_available - MIN_MEMORY_FOR_MBUFFER < req
      · simp only [check_memory_for_mbuffer, h1, h2, if_true, if_false, ite_true, ite_false]
        have h4 : (0:ℤ) ≤ 4 * (m.memory_available - MIN_MEMORY_FOR_MBUFFER) := by omega
        rw [Int.tdiv_eq_ediv h4 (by norm_num)]
        have hd : 4 * (m.memory_available - MIN_MEMORY_FOR_MBUFFER) / 5
            ≤ m.memory_available - MIN_MEMORY_FOR_MBUFFER := by omega
        exact max_le hreq (by omega)
      · simp only [check_memory_for_mbuffer, h1, h2, if_true, if_false, ite_true, ite_false]
        split_ifs <;> simp
  · intro ha hb
    have h1 : ¬ m.memory_available < MIN_MEMORY_FOR_MBUFFER := by omega
    simp [check_memory_for_mbuffer, h1, hb]

/-- Witness for `recommended_bound_amended` at a 2 GiB request with
1.5 GiB available out of 8 GiB (reduce branch, request above floor). -/
theorem recommended_bound_amended_witness :
    (MIN_MEMORY_FOR_MBUFFER ≤ (2147483648 : ℤ)
      ∧ MIN_MEMORY_FOR_MBUFFER
          ≤ (⟨8589934592, 1610612736, 0, 0, 0, 0, 0, 0⟩ : ResourceMetrics).memory_available)
    ∧ (check_memory_for_mbuffer 2147483648
        ⟨8589934592, 1610612736, 0, 0, 0, 0, 0, 0⟩).2 ≤ 2147483648
    ∧ (check_memory_for_mbuffer 2147483648
          ⟨8589934592, 1610612736, 0, 0, 0, 0, 0, 0⟩).2
        = max MIN_MEMORY_FOR_MBUFFER
            ((4 * ((⟨8589934592, 1610612736, 0, 0, 0, 0, 0, 0⟩ : ResourceMetrics).memory_available
              - MIN_MEMORY_FOR_MBUFFER)).tdiv 5) :=
  ⟨⟨by decide, by decide⟩,
    (recommended_bound_amended 2147483648 _).1 (by decide),
    (recommended_bound_amended 2147483648 _).2 (by decide) (by decide)⟩

/-- C3, counterexample: for the request `"2G"` and a snapshot with
exactly 1 GiB available (64 GiB total, so that the usage ratio exceeds
95 % and the classification is indeed CRITICAL), the recommendation is
exactly the 512 MiB floor — more than 10 % above the claimed ≈462 MiB —
and the plan size is also 512 MiB (the 50 % halving is clamped back up to
the floor), nowhere near the claimed ≈231 MiB; the block size is
`"256k"`, not 512 KiB (in the code `"512k"` is chosen only when the
*disk* check is CRITICAL). -/
theorem scenario_2g_cx :
    parse_mbuffer_size "2G".data = Except.ok 2147483648
    ∧ (check_memory_for_mbuffer 2147483648
        ⟨68719476736, 1073741824, 0, 0, 0, 0, 0, 0⟩).2 = 536870912
    ∧ ¬ ((536870912 : ℤ) ≤ 484442112 + 48444211)
    ∧ (get_optimal_mbuffer_params ResourceStatus.critical 536870912
        ResourceStatus.ok).size_bytes = 536870912
    ∧ ¬ ((536870912 : ℤ) ≤ 242221056 + 24222105)
    ∧ (get_optimal_mbuffer_params ResourceStatus.critical 536870912
        ResourceStatus.ok).block_size ≠ "512k".data := by
  refine ⟨by decide, by decide, by decide, by decide, by decide, by decide⟩

/-- C3, amended: `"2G"` parses to 2,147,483,648 bytes; with 1 GiB
available out of 64 GiB the classification is CRITICAL and the
recommendation is exactly 512 MiB (the floor); the resulting plan keeps
size 512 MiB (50 % of the recommendation clamped up to the floor), fill
70 %, and block size 256 KiB when the disk check is not critical
(512 KiB would require a CRITICAL disk check). -/
theorem scenario_2g_amended :
    parse_mbuffer_size "2G".data = Except.ok 2147483648
    ∧ check_memory_for_mbuffer 2147483648
        ⟨68719476736, 1073741824, 0, 0, 0, 0, 0, 0⟩
      = (ResourceStatus.critical, 536870912)
    ∧ get_optimal_mbuffer_params ResourceStatus.critical 536870912 ResourceStatus.ok
      = ⟨536870912, "70%".data, "256k".data, ResourceStatus.critical⟩
    ∧ get_optimal_mbuffer_params ResourceStatus.critical 536870912 ResourceStatus.critical
      = ⟨536870912, "70%".data, "512k".data, ResourceStatus.critical⟩ := by
  refine ⟨by decide, by decide, by decide, by decide⟩

/-- C7, counterexample: a status query whose first `mt` invocation fails
with a transient nonzero exit is *not* surfaced — `get_status` silently
retries (`retry_on_error` defaults to `True`), consumes a second
invocation and reports the drive READY. -/
theorem status_not_retried_cx :
    get_status mtSeqC7 = (TapeStatusM.ready, [], 2) ∧ (2 : ℕ) ≠ 1 :=
  ⟨by decide, by decide⟩

/-- C7, amended: a timeout (and likewise an exception) during the status
command surfaces immediately after a single invocation as an ERROR
status; but a transient nonzero exit is retried — at least a second
invocation happens, and never more than 3 in total — exactly like the
positioning commands. -/
theorem status_retry_amended (f : ℕ → MtOutcome) :
    (f 0 = MtOutcome.timedOut →
      get_status f
        = (TapeStatusM.errorSt, "Таймаут выполнения команды mt".data, 1))
    ∧ (∀ m, f 0 = MtOutcome.raised m →
        (get_status f).1 = TapeStatusM.errorSt ∧ (get_status f).2.2 = 1)
    ∧ (get_status f).2.2 ≤ 3
    ∧ (∀ c out err, f 0 = MtOutcome.exit c out err → c ≠ 0 →
        2 ≤ (get_status f).2.2) := by
  have e3 : (if True then MT_MAX_RETRIES else 1) = 2 + 1 := rfl
  refine ⟨?_, ?_, ?_, ?_⟩
  · intro h0
    have hstep : mtRun true f (2 + 1) 0
        = ((false, "Таймаут выполнения команды mt".data), 0 + 1) := by
      rw [mtRun_succ, h0]
    simp only [get_status, execute_mt_command]
    rw [e3, hstep]
    rfl
  · intro m h0
    have hstep : mtRun true f (2 + 1) 0
        = ((false, "Исключение при выполнении mt: ".data ++ m), 0 + 1) := by
      rw [mtRun_succ, h0]
    simp only [get_status, execute_mt_command]
    rw [e3, hstep]
    exact ⟨rfl, rfl⟩
  · have hle := mtRun_count_le true f (2 + 1) 0
    simp only [get_status, execute_mt_command]
    rw [e3]
    split_ifs <;> simpa using hle
  · intro c out err h0 hc
    have hge := mtRun_count_succ_ge true f 1 1
    have hstep : mtRun true f (2 + 1) 0 = mtRun true f 2 (0 + 1) := by
      rw [mtRun_succ, h0]
      simp only [if_neg hc]
      rw [if_pos (show 0 < MT_MAX_RETRIES - 1 ∧ True from
        ⟨by norm_num [MT_MAX_RETRIES], trivial⟩)]
    simp only [get_status, execute_mt_command]
    rw [e3, hstep]
    split_ifs <;> simpa using hge

/-- Witness for `status_retry_amended`, instantiated at the
always-timing-out `mt` behaviour. -/
theorem status_retry_witness :
    ((fun _ : ℕ => MtOutcome.timedOut) 0 = MtOutcome.timedOut →
      get_status (fun _ => MtOutcome.timedOut)
        = (TapeStatusM.errorSt, "Таймаут выполнения команды mt".data, 1))
    ∧ (∀ m, (fun _ : ℕ => MtOutcome.timedOut) 0 = MtOutcome.raised m →
        (get_status (fun _ => MtOutcome.timedOut)).1 = TapeStatusM.errorSt
          ∧ (get_status (fun _ => MtOutcome.timedOut)).2.2 = 1)
    ∧ (get_status (fun _ => MtOutcome.timedOut)).2.2 ≤ 3
    ∧ (∀ c out err,
        (fun _ : ℕ => MtOutcome.timedOut) 0 = MtOutcome.exit c out err →
        c ≠ 0 → 2 ≤ (get_status (fun _ => MtOutcome.timedOut)).2.2) :=
  status_retry_amended (fun _ => MtOutcome.timedOut)

/-- C1: in `_execute_backup` a registry entry is attached exactly on the
Completed branch (one entry, as an `Option`); the job's terminal status
can only pair a Cancelled terminal state with no entry (vacuously so,
since `_execute_task` in fact forces Completed/Failed — see the C4 bug);
and in the core engine `backup` appends exactly one registry row iff it
succeeds, and none on any failure path. -/
theorem registry_entry_only_on_completed (env : BackupEnv) (cenv : CoreEnv) :
    ((execute_backup env).status = JobStatusM.completed
      ↔ (execute_backup env).registry_entry.isSome = true)
    ∧ (job_final_status env = JobStatusM.cancelled →
        (execute_backup env).registry_entry = none)
    ∧ ((core_backup cenv).1 = true ↔ (core_backup cenv).2.length = 1)
    ∧ ((core_backup cenv).1 = false → (core_backup cenv).2 = []) := by
  refine ⟨?_, ?_, ?_, ?_⟩
  · unfold execute_backup
    split_ifs <;> simp
  · intro hc
    unfold job_final_status at hc
    split_ifs at hc
  · unfold core_backup
    split_ifs <;> simp
  · unfold core_backup
    split_ifs <;> simp

/-- Witness for `registry_entry_only_on_completed` at the concrete
cancelled-backup environment and a failing core run. -/
theorem registry_entry_only_on_completed_witness :
    ((execute_backup envC4).status = JobStatusM.completed
      ↔ (execute_backup envC4).registry_entry.isSome = true)
    ∧ (job_final_status envC4 = JobStatusM.cancelled →
        (execute_backup envC4).registry_entry = none)
    ∧ ((core_backup ⟨false, 2, "[T1]".data, "3".data, "L".data,
          "/m/x.txt".data, "2024-06-01T00:00:00".data⟩).1 = true
      ↔ (core_backup ⟨false, 2, "[T1]".data, "3".data, "L".data,
          "/m/x.txt".data, "2024-06-01T00:00:00".data⟩).2.length = 1)
    ∧ ((core_backup ⟨false, 2, "[T1]".data, "3".data, "L".data,
          "/m/x.txt".data, "2024-06-01T00:00:00".data⟩).1 = false →
        (core_backup ⟨false, 2, "[T1]".data, "3".data, "L".data,
          "/m/x.txt".data, "2024-06-01T00:00:00".data⟩).2 = []) :=
  registry_entry_only_on_completed envC4
    ⟨false, 2, "[T1]".data, "3".data, "L".data, "/m/x.txt".data,
      "2024-06-01T00:00:00".data⟩

/-- C4: the cancellation flag observed in the monitoring loop does
terminate the pipeline, but the job then ends FAILED, not CANCELLED: the
terminated pipeline's nonzero exit code takes the Failed branch of
`_execute_backup`, and `_execute_task` unconditionally overwrites the
CANCELLED status set by `cancel()` with FAILED. -/
theorem cancellation_marks_failed_bug :
    (execute_backup envC4).terminated = true
    ∧ (execute_backup envC4).status = JobStatusM.failed
    ∧ job_final_status envC4 = JobStatusM.failed
    ∧ JobStatusM.failed ≠ JobStatusM.cancelled :=
  ⟨by decide, by decide, by decide, by decide⟩

/-- C9: `find` matches the queried label as a raw substring of each whole
registry line: with a registry whose first entry is labelled `Weekly` but
mentions `Daily` in its manifest path and whose second entry is labelled
`Daily`, `find("Daily")` returns the first (`Weekly`) entry. -/
theorem find_matches_raw_substring :
    find_backup_by_label
      ["2024-01-01 10:00:00;Weekly;[T1];1;/m/20240101_1000_Daily.txt".data,
        "2024-01-02 10:00:00;Daily;[T2];2;/m/20240102_1000_Daily.txt".data]
      "Daily".data
      = some ⟨"2024-01-01 10:00:00".data, "Weekly".data, "[T1]".data, "1".data,
          "/m/20240101_1000_Daily.txt".data⟩
    ∧ ("Weekly".data : Str) ≠ "Daily".data :=
  ⟨by decide, by decide⟩

/-- C5, counterexample: append a `Daily` entry to a registry whose
existing `Weekly` line contains `Daily` inside its manifest path; the
subsequent `find("Daily")` returns the earlier `Weekly` entry, whose
fields differ from the appended entry's. -/
theorem append_find_shadowed_cx :
    (find_backup_by_label
        (add_registry_entry
          ["2024-01-01 10:00:00;Weekly;[T1];1;/m/20240101_1000_Daily.txt".data]
          ⟨"2024-01-02 10:00:00".data, "Daily".data, "[T2]".data, "2".data,
            "/m/20240102_1000_Daily.txt".data⟩)
        "Daily".data).map RegEntryM.label = some "Weekly".data
    ∧ ("Weekly".data : Str) ≠ "Daily".data :=
  ⟨by decide, by decide⟩

/-- C5, amended: `append` then `find(label)` returns exactly the appended
entry's fields, provided no existing registry line already contains the
label as a substring and the entry serializes cleanly (`entryWF`: its
line survives the read-side `strip` and splits back into its five
fields). -/
theorem append_find_roundtrip (lines : List Str) (e : RegEntryM)
    (hnew : ∀ l ∈ read_lines lines, strContains e.label l = false)
    (hwf : entryWF e) :
    find_backup_by_label (add_registry_entry lines e) e.label = some e := by
  obtain ⟨hstrip, hsplit⟩ := hwf
  have hne : renderLine e ≠ [] := by
    intro h0
    rw [h0] at hsplit
    simp [pySplitList] at hsplit
  unfold find_backup_by_label add_registry_entry
  rw [read_lines_append]
  have hsingle : read_lines [renderLine e] = [renderLine e] := by
    simp [read_lines, hstrip, hne]
  rw [hsingle, findSome_append_none]
  · have hcontains : strContains e.label (renderLine e) = true := by
      have h := strContains_append_mid (e.ts ++ [';']) e.label
        (';' :: e.tapes ++ ';' :: e.fileIndex ++ ';' :: e.manifest)
      simpa [renderLine] using h
    have hparse : parseLine (renderLine e) = some e := by
      unfold parseLine
      rw [hstrip, hsplit]
    simp [List.findSome?, hcontains, hparse]
  · intro x hx
    simp [hnew x hx]

/-- Witness for `append_find_roundtrip`: appending a fresh `Beta` entry
to a one-line registry that nowhere mentions `Beta`. -/
theorem append_find_roundtrip_witness :
    (∀ l ∈ read_lines ["2024-01-01 00:00:00;Alpha;[T1];1;/m/a.txt".data],
      strContains ("Beta".data : Str) l = false)
    ∧ entryWF ⟨"2024-01-02 00:00:00".data, "Beta".data, "[T2]".data, "2".data,
        "/m/b.txt".data⟩
    ∧ find_backup_by_label
        (add_registry_entry ["2024-01-01 00:00:00;Alpha;[T1];1;/m/a.txt".data]
          ⟨"2024-01-02 00:00:00".data, "Beta".data, "[T2]".data, "2".data,
            "/m/b.txt".data⟩)
        "Beta".data
      = some ⟨"2024-01-02 00:00:00".data, "Beta".data, "[T2]".data, "2".data,
          "/m/b.txt".data⟩ :=
  ⟨by decide, by decide,
    append_find_roundtrip _ _ (by decide) (by decide)⟩

/-- C6, counterexample: on a registry whose single entry is newer than
the cutoff, prune removes nothing — and takes *no* snapshot (the claim
says the store is snapshotted first unconditionally; the code snapshots
only when at least one entry is removed). -/
theorem prune_no_snapshot_cx :
    cleanup_old_backups_from_registry 1717977600 365
        ⟨["2024-06-01 00:00:00;A;[T1];1;/m/a.txt".data], []⟩
      = (⟨["2024-06-01 00:00:00;A;[T1];1;/m/a.txt".data], []⟩, 0)
    ∧ (cleanup_old_backups_from_registry 1717977600 365
        ⟨["2024-06-01 00:00:00;A;[T1];1;/m/a.txt".data], []⟩).1.backups = [] :=
  ⟨by decide, by decide⟩

/-- C6, amended: provided no registry line has more than five
`;`-separated fields, prune leaves no listed entry with a parseable
timestamp at or below the cutoff, preserves the relative order of the
kept entries (the post-state listing is a sublist of the pre-state
listing), returns the number of removed entries, snapshots the store
first whenever at least one entry is removed — and only then; when
nothing is removed the state is untouched. -/
theorem prune_amended (now maxAgeDays : ℤ) (st : RegistryState)
    (hparts : ∀ l ∈ read_lines st.lines, (pySplitList ';' l).length ≤ 5) :
    (∀ b ∈ get_all_backups
        (cleanup_old_backups_from_registry now maxAgeDays st).1.lines,
      ∀ t, parse_ts b.ts = some t → now - maxAgeDays * 86400 < t)
    ∧ ((get_all_backups
          (cleanup_old_backups_from_registry now maxAgeDays st).1.lines).Sublist
        (get_all_backups st.lines))
    ∧ ((cleanup_old_backups_from_registry now maxAgeDays st).2
        = (get_all_backups st.lines).length
          - (get_all_backups
              (cleanup_old_backups_from_registry now maxAgeDays st).1.lines).length)
    ∧ (0 < (cleanup_old_backups_from_registry now maxAgeDays st).2 →
        (cleanup_old_backups_from_registry now maxAgeDays st).1.backups.head?
          = some st.lines)
    ∧ ((cleanup_old_backups_from_registry now maxAgeDays st).2 = 0 →
        (cleanup_old_backups_from_registry now maxAgeDays st).1 = st) := by
  have hres := cleanup_eq now maxAgeDays st
  by_cases hemp : (get_all_backups st.lines).isEmpty = true
  · rw [if_pos hemp] at hres
    have hnil : get_all_backups st.lines = [] := by
      simpa using hemp
    rw [hres]
    refine ⟨?_, ?_, ?_, ?_, ?_⟩
    · intro b hb
      rw [hnil] at hb
      exact absurd hb (List.not_mem_nil b)
    · exact List.Sublist.refl _
    · simp
    · intro h0
      exact absurd h0 (by simp)
    · intro _
      rfl
  · rw [if_neg hemp] at hres
    have hwfAll : ∀ b ∈ (get_all_backups st.lines).filter
        (keepEntry (now - maxAgeDays * 86400)),
        pyStripList (renderLine b) = renderLine b
        ∧ renderLine b ≠ [] ∧ parseLine (renderLine b) = some b := by
      intro b hb
      have hba := List.mem_of_mem_filter hb
      obtain ⟨l, hl, hpl⟩ := List.mem_filterMap.1 hba
      obtain ⟨hstr, hlne⟩ := mem_read_lines l st.lines hl
      have h5' := parseLine_some_length l b hpl
      rw [hstr] at h5'
      have h5 : (pySplitList ';' l).length = 5 := le_antisymm (hparts l hl) h5'
      have hrb := parse_render l hstr h5 b hpl
      exact ⟨by rw [hrb]; exact hstr, by rw [hrb]; exact hlne,
        by rw [hrb]; exact hpl⟩
    have hround : get_all_backups
        (((get_all_backups st.lines).filter
            (keepEntry (now - maxAgeDays * 86400))).map renderLine)
        = (get_all_backups st.lines).filter
            (keepEntry (now - maxAgeDays * 86400)) := by
      unfold get_all_backups
      rw [read_lines_of_stripped]
      · rw [List.filterMap_map]
        exact filterMap_id_of _ _ (fun b hb => (hwfAll b hb).2.2)
      · intro l hl
        obtain ⟨b, hb, hbl⟩ := List.mem_map.1 hl
        obtain ⟨h1, h2, _⟩ := hwfAll b hb
        exact ⟨hbl ▸ h1, hbl ▸ h2⟩
    have hkeepOf : ∀ b, keepEntry (now - maxAgeDays * 86400) b = true →
        ∀ t, parse_ts b.ts = some t → now - maxAgeDays * 86400 < t := by
      intro b hk t hpt
      unfold keepEntry at hk
      rw [hpt] at hk
      simpa using hk
    by_cases hpos : 0 < (get_all_backups st.lines).countP
        (fun b => ! keepEntry (now - maxAgeDays * 86400) b)
    · rw [if_pos hpos] at hres
      rw [hres]
      refine ⟨?_, ?_, ?_, ?_, ?_⟩
      · intro b hb t hpt
        simp only at hb
        rw [hround] at hb
        exact hkeepOf b (List.of_mem_filter hb) t hpt
      · simp only
        rw [hround]
        exact List.filter_sublist _
      · simp only
        rw [hround]
        have hadd := countP_bnot_add (keepEntry (now - maxAgeDays * 86400))
          (get_all_backups st.lines)
        have hlen := List.countP_eq_length_filter
          (keepEntry (now - maxAgeDays * 86400)) (get_all_backups st.lines)
        omega
      · intro _
        rfl
      · intro h0
        omega
    · rw [if_neg hpos] at hres
      have h0 : (get_all_backups st.lines).countP
          (fun b => ! keepEntry (now - maxAgeDays * 86400) b) = 0 := by
        omega
      have hallkeep := List.countP_eq_zero.1 h0
      rw [hres]
      refine ⟨?_, ?_, ?_, ?_, ?_⟩
      · intro b hb t hpt
        have hk := hallkeep b hb
        simp at hk
        exact hkeepOf b hk t hpt
      · exact List.Sublist.refl _
      · simp only
        omega
      · intro habs
        exact absurd habs (by simp [h0])
      · intro _
        rfl

/-- Witness for `prune_amended`: pruning `stC6` (one stale, one fresh
entry) with a 10-day retention on 2024-06-02. -/
theorem prune_amended_witness :
    (∀ l ∈ read_lines stC6.lines, (pySplitList ';' l).length ≤ 5)
    ∧ ((∀ b ∈ get_all_backups
          (cleanup_old_backups_from_registry 1717286400 10 stC6).1.lines,
        ∀ t, parse_ts b.ts = some t → 1717286400 - 10 * 86400 < t)
      ∧ ((get_all_backups
            (cleanup_old_backups_from_registry 1717286400 10 stC6).1.lines).Sublist
          (get_all_backups stC6.lines))
      ∧ ((cleanup_old_backups_from_registry 1717286400 10 stC6).2
          = (get_all_backups stC6.lines).length
            - (get_all_backups
                (cleanup_old_backups_from_registry 1717286400 10 stC6).1.lines).length)
      ∧ (0 < (cleanup_old_backups_from_registry 1717286400 10 stC6).2 →
          (cleanup_old_backups_from_registry 1717286400 10 stC6).1.backups.head?
            = some stC6.lines)
      ∧ ((cleanup_old_backups_from_registry 1717286400 10 stC6).2 = 0 →
          (cleanup_old_backups_from_registry 1717286400 10 stC6).1 = stC6)) :=
  ⟨by decide, prune_amended 1717286400 10 stC6 (by decide)⟩
